import Mathlib

/-!
Shallow embedding of the zip-code-radius geospatial core of the
InterTalentPortal repository: the cached zip-to-coordinate resolver
(`getZipCoordinates`, `loadZipCache`, `saveZipCache` and the batch prefetch
loop of `importData` in scripts/import-to-ray-test-accurate.ts), the
approximate prefix table (`ZIP_RANGES`, `getApproximateLocation` in
scripts/import-to-ray-test.ts), the three radius-search strategies of the
geo performance test script, and the spec's RadiusQueryPlanner.

Modelling conventions:
* JavaScript strings are modelled as `List Char`; `s.substring(0, n)` is
  `List.take n`.
* JavaScript numbers that carry coordinate data in the resolver/cache are
  modelled as `ℚ`; the trigonometric distance computations are modelled
  over `ℝ`.
* The remote Zippopotam.us call is modelled by an environment
  `List Char → FetchOutcome` giving, per zip, the outcome the running code
  observes: an ok response with its parsed `places` payload, a non-ok
  HTTP status, or a thrown error (abort timeout, network failure, or a
  body whose JSON parse throws).
* Observable effects (the 100 ms rate-limit delay, issuing a remote
  request) are recorded in an event trace.
-/

/-- Coordinates as cached per zip: the `ZipCoordinates` interface of
import-to-ray-test-accurate.ts (`lat`, `lng`, optional `city`/`state`),
with the parsed floats modelled as rationals. -/
structure ZipCoordinates where
  lat : ℚ
  lng : ℚ
  city : Option (List Char)
  stateAbbr : Option (List Char)
  deriving DecidableEq, Repr

/-- The in-memory `zipCache : Map<string, ZipCoordinates | null>` modelled as
an insertion-ordered association list; a `none` value is a cached `null`
(confirmed-invalid zip). -/
abbrev ZipCache := List (List Char × Option ZipCoordinates)

/-- `Map.get` composed with `Map.has`: `some v` when the key is present
(where `v` itself may be `none`, the cached `null`), `none` when absent. -/
def cacheFind? (c : ZipCache) (k : List Char) : Option (Option ZipCoordinates) :=
  match c with
  | [] => none
  | (k', v) :: rest => if k' = k then some v else cacheFind? rest k

/-- `Map.set`: replace the value at an existing key in place, otherwise
append a new entry (JS `Map` insertion-order semantics). -/
def cacheSet (c : ZipCache) (k : List Char) (v : Option ZipCoordinates) : ZipCache :=
  match c with
  | [] => [(k, v)]
  | (k', v') :: rest => if k' = k then (k, v) :: rest else (k', v') :: cacheSet rest k v

/-- One element of the `data.places` array of an ok Zippopotam.us response,
after the `parseFloat` calls. -/
structure ZipPlace where
  latitude : ℚ
  longitude : ℚ
  placeName : List Char
  stateAbbr : List Char
  deriving DecidableEq, Repr

/-- What the code observes from one remote lookup attempt. -/
inductive FetchOutcome where
  | ok (places : List ZipPlace)
  | notOk (status : Nat)
  | thrown
  deriving DecidableEq, Repr

/-- The environment: per normalized zip, the outcome of a remote lookup. -/
abbrev GeoEnv := List Char → FetchOutcome

/-- Observable side effects of the resolver. -/
inductive GeoEvent where
  | delay (ms : Nat)
  | fetch (zip : List Char)
  deriving DecidableEq, Repr

/-- Result of one `getZipCoordinates` call: the returned value, the cache
after the call, and the trace of observable effects during the call. -/
structure ResolveStep where
  result : Option ZipCoordinates
  cache : ZipCache
  events : List GeoEvent
  deriving DecidableEq, Repr

/-- `getZipCoordinates` of import-to-ray-test-accurate.ts: normalize to the
first 5 characters; on a cache hit return the cached value (`get(zip5) ||
null`) with no effects; otherwise wait 100 ms, issue the remote request,
and: on an ok response with a first place, cache and return the parsed
coordinates; on an ok response without places or on a non-ok status, cache
`null` and return `null`; on a thrown error, return `null` without caching. -/
def getZipCoordinates (env : GeoEnv) (zipCache : ZipCache) (zipCode : List Char) :
    ResolveStep :=
  let zip5 := zipCode.take 5
  match cacheFind? zipCache zip5 with
  | some v => ⟨v, zipCache, []⟩
  | none =>
    let evs := [GeoEvent.delay 100, GeoEvent.fetch zip5]
    match env zip5 with
    | FetchOutcome.ok places =>
      match places.head? with
      | some p =>
        let coords : ZipCoordinates := ⟨p.latitude, p.longitude, some p.placeName, some p.stateAbbr⟩
        ⟨some coords, cacheSet zipCache zip5 (some coords), evs⟩
      | none => ⟨none, cacheSet zipCache zip5 none, evs⟩
    | FetchOutcome.notOk _ => ⟨none, cacheSet zipCache zip5 none, evs⟩
    | FetchOutcome.thrown => ⟨none, zipCache, evs⟩

/-- `saveZipCache`: serialize the cache map wholesale to the durable store
(the JSON object holding every entry, cached `null`s included). -/
def saveZipCache (zipCache : ZipCache) : List (List Char × Option ZipCoordinates) :=
  zipCache

/-- `loadZipCache`: populate an empty in-memory cache by `set`ting every
stored entry in order. -/
def loadZipCache (stored : List (List Char × Option ZipCoordinates)) : ZipCache :=
  stored.foldl (fun c kv => cacheSet c kv.1 kv.2) []

/-- JS `Set.add`: append unless already present (insertion order kept). -/
def setAdd (s : List (List Char)) (x : List Char) : List (List Char) :=
  if x ∈ s then s else s ++ [x]

/-- The unique-zip collection pass of `importData`: for each row whose
`ZipCode` is truthy (non-empty), add its first 5 characters to a `Set`. -/
def uniqueZipsOf (zipColumn : List (List Char)) : List (List Char) :=
  zipColumn.foldl (fun s z => if z.isEmpty then s else setAdd s (z.take 5)) []

/-- The sequential fetch loop of `importData`: resolve each zip in turn
through `getZipCoordinates`, threading the cache and concatenating the
event traces. -/
def prefetchLoop (env : GeoEnv) (zipCache : ZipCache) :
    List (List Char) → ZipCache × List GeoEvent
  | [] => (zipCache, [])
  | z :: rest =>
    let s := getZipCoordinates env zipCache z
    let r := prefetchLoop env s.cache rest
    (r.1, s.events ++ r.2)

/-- The pre-fetch phase of `importData` (steps 3 of
import-to-ray-test-accurate.ts): collect the unique 5-digit zips, keep the
ones not already cached, and fetch those sequentially. -/
def importPrefetch (env : GeoEnv) (zipCache : ZipCache) (zipColumn : List (List Char)) :
    ZipCache × List GeoEvent :=
  let uniqueZips := uniqueZipsOf zipColumn
  let uncachedZips := uniqueZips.filter (fun z => (cacheFind? zipCache z).isNone)
  prefetchLoop env zipCache uncachedZips

/-- Recognizer for remote-call events. -/
def isFetch : GeoEvent → Bool
  | GeoEvent.fetch _ => true
  | _ => false

/-- Number of remote calls recorded in a trace. -/
def fetchCount (evs : List GeoEvent) : Nat :=
  (evs.filter isFetch).length

/-- One row of the static `ZIP_RANGES` table of import-to-ray-test.ts: the
key `'lo-hi'` parsed by `range.split('-').map(Number)`, and the value
coordinates. -/
structure ZipRange where
  lo : Nat
  hi : Nat
  lat : ℚ
  lng : ℚ
  deriving DecidableEq, Repr

/-- The `ZIP_RANGES` table of import-to-ray-test.ts, in source order. -/
def ZIP_RANGES : List ZipRange := [
  ⟨10, 27, 42.0, -71.0⟩,
  ⟨28, 29, 41.8, -71.4⟩,
  ⟨30, 38, 43.0, -71.5⟩,
  ⟨39, 49, 44.5, -69.0⟩,
  ⟨50, 59, 44.0, -72.7⟩,
  ⟨60, 69, 41.6, -72.7⟩,
  ⟨70, 89, 40.7, -74.2⟩,
  ⟨100, 149, 40.7, -74.0⟩,
  ⟨150, 196, 39.9, -75.2⟩,
  ⟨197, 199, 39.3, -76.6⟩,
  ⟨200, 205, 38.9, -77.0⟩,
  ⟨220, 246, 37.5, -77.5⟩,
  ⟨247, 268, 35.8, -78.6⟩,
  ⟨270, 289, 33.7, -84.4⟩,
  ⟨290, 299, 33.5, -86.8⟩,
  ⟨300, 319, 33.75, -84.39⟩,
  ⟨320, 339, 28.5, -81.4⟩,
  ⟨340, 349, 33.5, -86.8⟩,
  ⟨350, 369, 32.3, -86.3⟩,
  ⟨370, 385, 36.17, -86.78⟩,
  ⟨386, 397, 35.15, -90.05⟩,
  ⟨398, 399, 38.2, -85.7⟩,
  ⟨400, 427, 38.2, -85.7⟩,
  ⟨430, 432, 39.96, -82.99⟩,
  ⟨433, 436, 39.76, -84.19⟩,
  ⟨437, 438, 41.08, -81.52⟩,
  ⟨440, 449, 41.5, -81.7⟩,
  ⟨450, 458, 39.76, -86.16⟩,
  ⟨460, 469, 39.76, -86.16⟩,
  ⟨470, 479, 41.9, -87.6⟩,
  ⟨480, 499, 42.3, -83.0⟩,
  ⟨500, 528, 41.6, -93.6⟩,
  ⟨530, 549, 43.1, -89.4⟩,
  ⟨550, 567, 44.9, -93.3⟩,
  ⟨570, 577, 43.5, -96.7⟩,
  ⟨580, 588, 46.8, -100.8⟩,
  ⟨590, 599, 46.6, -112.0⟩,
  ⟨600, 629, 39.8, -89.6⟩,
  ⟨630, 658, 38.6, -90.2⟩,
  ⟨660, 679, 39.1, -94.6⟩,
  ⟨680, 699, 41.3, -96.0⟩,
  ⟨700, 714, 29.95, -90.07⟩,
  ⟨715, 729, 30.45, -91.15⟩,
  ⟨730, 749, 35.5, -97.5⟩,
  ⟨750, 759, 32.78, -96.8⟩,
  ⟨760, 769, 32.75, -97.33⟩,
  ⟨770, 779, 29.76, -95.37⟩,
  ⟨780, 789, 29.42, -98.49⟩,
  ⟨790, 799, 31.76, -106.49⟩,
  ⟨800, 816, 39.7, -104.9⟩,
  ⟨820, 831, 42.9, -106.3⟩,
  ⟨832, 838, 43.5, -112.0⟩,
  ⟨840, 847, 40.8, -111.9⟩,
  ⟨850, 865, 33.45, -112.07⟩,
  ⟨870, 884, 35.08, -106.65⟩,
  ⟨885, 895, 36.17, -115.14⟩,
  ⟨900, 918, 34.05, -118.24⟩,
  ⟨919, 921, 32.72, -117.16⟩,
  ⟨922, 928, 33.45, -117.0⟩,
  ⟨930, 935, 35.37, -119.02⟩,
  ⟨936, 966, 37.77, -122.42⟩,
  ⟨967, 968, 21.31, -157.86⟩,
  ⟨970, 979, 45.52, -122.68⟩,
  ⟨980, 994, 47.61, -122.33⟩,
  ⟨995, 999, 61.22, -149.9⟩]

/-- JS `parseInt` restricted to the inputs that occur here (leading decimal
digits, no whitespace or sign handling): the value of the longest digit
run at the front, or `none` (NaN) when the first character is not a digit. -/
def jsParseIntPrefix (s : List Char) : Option Nat :=
  let ds := s.takeWhile Char.isDigit
  if ds.isEmpty then none
  else some (ds.foldl (fun n c => 10 * n + (c.toNat - 48)) 0)

/-- The range test of the lookup loop in `getApproximateLocation`. -/
def rangeContains (pfx : Nat) (r : ZipRange) : Bool :=
  decide (r.lo ≤ pfx) && decide (pfx ≤ r.hi)

/-- `getApproximateLocation` of import-to-ray-test.ts: reject zips shorter
than 3 characters, parse the 3-character numeric prefix (NaN rejects), and
return the coordinates of the first `ZIP_RANGES` row whose range contains
the prefix, else `null`. -/
def getApproximateLocation (zipCode : List Char) : Option (ℚ × ℚ) :=
  if zipCode.length < 3 then none
  else
    match jsParseIntPrefix (zipCode.take 3) with
    | none => none
    | some pfx => (ZIP_RANGES.find? (rangeContains pfx)).map (fun r => (r.lat, r.lng))

/-- A latitude/longitude pair in degrees, over the reals. -/
structure Coordinate where
  lat : ℝ
  lng : ℝ

/-- `RADIANS(x)` respectively `x * Math.PI / 180`. -/
noncomputable def radiansOf (deg : ℝ) : ℝ := deg * Real.pi / 180

/-- The inner expression of the SQL distance formula in the geo test
script: `COS(RADIANS(a.lat)) * COS(RADIANS(b.lat)) * COS(RADIANS(b.lng) -
RADIANS(a.lng)) + SIN(RADIANS(a.lat)) * SIN(RADIANS(b.lat))`, the cosine
of the central angle between `a` and `b`. -/
noncomputable def cosAngle (a b : Coordinate) : ℝ :=
  Real.cos (radiansOf a.lat) * Real.cos (radiansOf b.lat) *
    Real.cos (radiansOf b.lng - radiansOf a.lng) +
  Real.sin (radiansOf a.lat) * Real.sin (radiansOf b.lat)

/-- The angular separation of two coordinates. -/
noncomputable def centralAngle (a b : Coordinate) : ℝ :=
  Real.arccos (cosAngle a b)

/-- The repository's DistanceCalculator: `3959 * ACOS(...)` from the manual
Haversine-in-SQL query of the geo test script (Earth radius 3959 miles). -/
noncomputable def distanceMiles (a b : Coordinate) : ℝ :=
  3959 * centralAngle a b

/-- The spec's wording of the DistanceCalculator, for the refinement
comparison: the Haversine great-circle formula with Earth radius 3959
miles, `2 R asin (sqrt (sin^2 (dLat/2) + cos lat1 cos lat2 sin^2 (dLng/2)))`. -/
noncomputable def specHaversineMiles (a b : Coordinate) : ℝ :=
  2 * 3959 * Real.arcsin (Real.sqrt
    (Real.sin (radiansOf (b.lat - a.lat) / 2) ^ 2 +
      Real.cos (radiansOf a.lat) * Real.cos (radiansOf b.lat) *
        Real.sin (radiansOf (b.lng - a.lng) / 2) ^ 2))

/-- A row of the records store as the radius-search strategies see it:
an id, the optional `ZipCode` column, and the optional `GeoLocation`
spatial column. -/
structure GeoRecord where
  personId : Nat
  zipCode : Option (List Char)
  geo : Option Coordinate

/-- Model of SQL Server `GeoLocation.STDistance(@center)` in meters
(the engine's geodesic distance is modelled as the great-circle distance
on the stored coordinates). -/
noncomputable def stDistanceMeters (center g : Coordinate) : ℝ :=
  distanceMiles center g * 1609.344

/-- TEST 1 of the geo test script (native spatial index): records with a
`GeoLocation` whose `STDistance` from the center is at most
`radiusMiles * 1609.344` meters. -/
def nativeMatches (ds : List GeoRecord) (center : Coordinate) (radiusMiles : ℝ) :
    Set GeoRecord :=
  {r | r ∈ ds ∧ ∃ g, r.geo = some g ∧
    stDistanceMeters center g ≤ radiusMiles * 1609.344}

/-- The rectangular pre-filter of TEST 2: `latDelta = radius / 69.0`,
`lngDelta = radius / (69.0 * cos(centerLat in radians))`, and the point
lies in the axis-aligned box around the center (model of `STIntersects`
with the polygon built from those deltas). -/
noncomputable def inBoundingBox (center : Coordinate) (radiusMiles : ℝ) (g : Coordinate) :
    Prop :=
  let latDelta := radiusMiles / 69.0
  let lngDelta := radiusMiles / (69.0 * Real.cos (radiansOf center.lat))
  center.lat - latDelta ≤ g.lat ∧ g.lat ≤ center.lat + latDelta ∧
    center.lng - lngDelta ≤ g.lng ∧ g.lng ≤ center.lng + lngDelta

/-- TEST 2 of the geo test script (bounding-box pre-filter): records with a
`GeoLocation` inside the box and within `STDistance` radius. -/
noncomputable def bboxMatches (ds : List GeoRecord) (center : Coordinate)
    (radiusMiles : ℝ) : Set GeoRecord :=
  {r | r ∈ ds ∧ ∃ g, r.geo = some g ∧ inBoundingBox center radiusMiles g ∧
    stDistanceMeters center g ≤ radiusMiles * 1609.344}

/-- Lexicographic comparison of character lists, modelling SQL string
comparison of the equal-length `LEFT(ZipCode, 3)` operands. -/
def charListLe : List Char → List Char → Bool
  | [], _ => true
  | _ :: _, [] => false
  | a :: as, b :: bs => if a = b then charListLe as bs else decide (a < b)

/-- SQL `s BETWEEN lo AND hi` on strings. -/
def sqlBetween (s lo hi : List Char) : Bool :=
  charListLe lo s && charListLe s hi

/-- The `CASE WHEN LEFT(ZipCode, 3) BETWEEN ... END` coordinates that
TEST 3 substitutes for each record (only four cases, with a fixed
`(40.0, -82.0)` default). -/
noncomputable def test3Coordinate (zip : List Char) : Coordinate :=
  if sqlBetween (zip.take 3) "440".data "449".data then ⟨41.5, -81.7⟩
  else if sqlBetween (zip.take 3) "430".data "432".data then ⟨39.96, -82.99⟩
  else if sqlBetween (zip.take 3) "450".data "458".data then ⟨39.76, -86.16⟩
  else ⟨40.0, -82.0⟩

/-- TEST 3 of the geo test script (exhaustive per-record Haversine): records
with a non-null `ZipCode` whose prefix-derived approximate coordinate is
within `radiusMiles` of the center by the manual formula. -/
noncomputable def exhaustiveMatches (ds : List GeoRecord) (center : Coordinate)
    (radiusMiles : ℝ) : Set GeoRecord :=
  {r | r ∈ ds ∧ ∃ z, r.zipCode = some z ∧
    distanceMiles center (test3Coordinate z) ≤ radiusMiles}

/-- The failure taxonomy of the spec's RadiusQueryPlanner. -/
inductive QueryFailureReason where
  | unresolvableCenter
  deriving DecidableEq, Repr

/-- `SearchResult | QueryFailure`: an ordered list of
`(recordId, distanceMiles)` hits, or a typed failure. -/
inductive QueryOutcome where
  | success (results : List (Nat × ℝ))
  | failure (reason : QueryFailureReason)

/-- Modelled from the spec: the composite resolver of spec section 4.1.
The repository has the cache/remote stage (`getZipCoordinates`) and the
approximate fallback (`getApproximateLocation`) as separate scripts, but
the single `resolve` pipeline (src/lib/geospatial) is not under src/;
the staging below follows the spec's short-circuit order: normalize,
fail fast under 3 digits, cache/remote, then approximate fallback. -/
def resolveCenter (env : GeoEnv) (zipCache : ZipCache) (zip : List Char) :
    Option (ℚ × ℚ) :=
  let zip5 := zip.take 5
  if (zip5.filter Char.isDigit).length < 3 then none
  else
    match (getZipCoordinates env zipCache zip).result with
    | some c => some (c.lat, c.lng)
    | none => getApproximateLocation zip5

/-- Modelled from the spec: the ordered `SearchResult` body of a successful
radius query (records with a spatial coordinate within the radius,
ascending by distance). -/
noncomputable def searchResults (ds : List GeoRecord) (center : Coordinate)
    (radiusMiles : ℝ) : List (Nat × ℝ) :=
  ((ds.filterMap (fun r => r.geo.map (fun g => (r.personId, distanceMiles center g)))).filter
    (fun p => @decide (p.2 ≤ radiusMiles) (Classical.propDecidable _))).mergeSort
    (fun p q => @decide (p.2 ≤ q.2) (Classical.propDecidable _))

/-- Modelled from the spec: `RadiusQueryPlanner.findWithinRadius`
(spec section 4.3; src/lib/geospatial and src/lib/azure-spatial are not
under src/, only their callers are): resolve the center through the
composite resolver and either answer the spatial query or return
`QueryFailure{UnresolvableCenter}`. -/
noncomputable def findWithinRadius (env : GeoEnv) (zipCache : ZipCache)
    (ds : List GeoRecord) (centerZip : List Char) (radiusMiles : ℝ) : QueryOutcome :=
  match resolveCenter env zipCache centerZip with
  | none => QueryOutcome.failure QueryFailureReason.unresolvableCenter
  | some c => QueryOutcome.success (searchResults ds ⟨(c.1 : ℝ), (c.2 : ℝ)⟩ radiusMiles)

/-! ### Cache lemmas -/

lemma cacheFind?_set_self (c : ZipCache) (k : List Char) (v : Option ZipCoordinates) :
    cacheFind? (cacheSet c k v) k = some v := by
  induction c with
  | nil => simp [cacheSet, cacheFind?]
  | cons kv rest ih =>
    by_cases h : kv.1 = k
    · simp [cacheSet, cacheFind?, h]
    · simp only [cacheSet, cacheFind?, h, if_false, if_neg h]
      exact ih

lemma cacheFind?_set_ne (c : ZipCache) (k k' : List Char) (v : Option ZipCoordinates)
    (h : k ≠ k') : cacheFind? (cacheSet c k v) k' = cacheFind? c k' := by
  induction c with
  | nil => simp [cacheSet, cacheFind?, h]
  | cons kv rest ih =>
    by_cases hk : kv.1 = k
    · simp [cacheSet, cacheFind?, hk, h]
    · simp only [cacheSet, if_neg hk, cacheFind?]
      by_cases hk' : kv.1 = k'
      · simp [hk']
      · simp [hk', ih]

/-- C1: for every zip whose 5-character normalization is already in the
cache, including a cached `null`, `getZipCoordinates` returns the cached
value with no remote call, no delay, and no cache mutation. -/
theorem resolve_cache_hit_no_remote_no_mutation (env : GeoEnv) (zipCache : ZipCache)
    (zipCode : List Char) (v : Option ZipCoordinates)
    (h : cacheFind? zipCache (zipCode.take 5) = some v) :
    getZipCoordinates env zipCache zipCode = ⟨v, zipCache, []⟩ := by
  simp [getZipCoordinates, h]

theorem resolve_cache_hit_no_remote_no_mutation_w :
    cacheFind? [("44289".data, (none : Option ZipCoordinates))] ("44289".data.take 5)
        = some none ∧
      getZipCoordinates (fun _ => FetchOutcome.thrown)
        [("44289".data, none)] "44289".data = ⟨none, [("44289".data, none)], []⟩ :=
  ⟨by decide, resolve_cache_hit_no_remote_no_mutation (fun _ => FetchOutcome.thrown)
    [("44289".data, none)] "44289".data none (by decide)⟩

/-- C2: on a cache miss, a definitive 404 not-found stores `null` in the
cache and returns `null`; a thrown (transient) error returns `null`
without touching the cache, so a later call for the same zip issues the
remote request again. -/
theorem resolve_notfound_caches_transient_skips (env env2 : GeoEnv)
    (zipCache : ZipCache) (zipCode : List Char)
    (hmiss : cacheFind? zipCache (zipCode.take 5) = none) :
    (env (zipCode.take 5) = FetchOutcome.notOk 404 →
      getZipCoordinates env zipCache zipCode =
        ⟨none, cacheSet zipCache (zipCode.take 5) none,
          [GeoEvent.delay 100, GeoEvent.fetch (zipCode.take 5)]⟩) ∧
    (env (zipCode.take 5) = FetchOutcome.thrown →
      getZipCoordinates env zipCache zipCode =
        ⟨none, zipCache, [GeoEvent.delay 100, GeoEvent.fetch (zipCode.take 5)]⟩ ∧
      GeoEvent.fetch (zipCode.take 5) ∈ (getZipCoordinates env2 zipCache zipCode).events) := by
  constructor
  · intro henv
    simp [getZipCoordinates, hmiss, henv]
  · intro henv
    constructor
    · simp [getZipCoordinates, hmiss, henv]
    · cases henv2 : env2 (zipCode.take 5) with
      | ok places =>
        cases places with
        | nil => simp [getZipCoordinates, hmiss, henv2]
        | cons p ps => simp [getZipCoordinates, hmiss, henv2]
      | notOk s => simp [getZipCoordinates, hmiss, henv2]
      | thrown => simp [getZipCoordinates, hmiss, henv2]

theorem resolve_notfound_caches_transient_skips_w :
    cacheFind? ([] : ZipCache) ("00000".data.take 5) = none ∧
      ((fun _ => FetchOutcome.notOk 404 : GeoEnv) ("00000".data.take 5)
          = FetchOutcome.notOk 404 →
        getZipCoordinates (fun _ => FetchOutcome.notOk 404) [] "00000".data =
          ⟨none, cacheSet [] ("00000".data.take 5) none,
            [GeoEvent.delay 100, GeoEvent.fetch ("00000".data.take 5)]⟩) ∧
      ((fun _ => FetchOutcome.notOk 404 : GeoEnv) ("00000".data.take 5)
          = FetchOutcome.thrown →
        getZipCoordinates (fun _ => FetchOutcome.notOk 404) [] "00000".data =
          ⟨none, [], [GeoEvent.delay 100, GeoEvent.fetch ("00000".data.take 5)]⟩ ∧
        GeoEvent.fetch ("00000".data.take 5) ∈
          (getZipCoordinates (fun _ => FetchOutcome.thrown) [] "00000".data).events) :=
  ⟨by decide, resolve_notfound_caches_transient_skips (fun _ => FetchOutcome.notOk 404)
    (fun _ => FetchOutcome.thrown) [] "00000".data (by decide)⟩

/-- C10: on a cache miss, any non-ok HTTP status (including a transient
500) makes `getZipCoordinates` cache `null` for the zip and return
`null`, and a later call that sees the resulting cache returns the
cached `null` without issuing a remote request. -/
theorem resolve_non_ok_status_caches_null (env env2 : GeoEnv) (zipCache : ZipCache)
    (zipCode : List Char) (s : Nat)
    (hmiss : cacheFind? zipCache (zipCode.take 5) = none)
    (henv : env (zipCode.take 5) = FetchOutcome.notOk s) :
    getZipCoordinates env zipCache zipCode =
      ⟨none, cacheSet zipCache (zipCode.take 5) none,
        [GeoEvent.delay 100, GeoEvent.fetch (zipCode.take 5)]⟩ ∧
    getZipCoordinates env2 (cacheSet zipCache (zipCode.take 5) none) zipCode =
      ⟨none, cacheSet zipCache (zipCode.take 5) none, []⟩ := by
  constructor
  · simp [getZipCoordinates, hmiss, henv]
  · simp [getZipCoordinates, cacheFind?_set_self]

theorem resolve_non_ok_status_caches_null_w :
    (cacheFind? ([] : ZipCache) ("44289".data.take 5) = none ∧
      (fun _ => FetchOutcome.notOk 500 : GeoEnv) ("44289".data.take 5)
        = FetchOutcome.notOk 500) ∧
    (getZipCoordinates (fun _ => FetchOutcome.notOk 500) [] "44289".data =
      ⟨none, cacheSet [] ("44289".data.take 5) none,
        [GeoEvent.delay 100, GeoEvent.fetch ("44289".data.take 5)]⟩ ∧
    getZipCoordinates (fun _ => FetchOutcome.notOk 500)
        (cacheSet [] ("44289".data.take 5) none) "44289".data =
      ⟨none, cacheSet [] ("44289".data.take 5) none, []⟩) :=
  ⟨⟨by decide, by decide⟩,
    resolve_non_ok_status_caches_null (fun _ => FetchOutcome.notOk 500)
      (fun _ => FetchOutcome.notOk 500) [] "44289".data 500 (by decide) (by decide)⟩

/-- C3 counterexample: the zip `"12"` normalizes to fewer than 3 digits,
yet on a cache miss `getZipCoordinates` still waits and issues a remote
request for it (the claim says no network call is issued). -/
theorem short_zip_still_fetches_cex :
    (getZipCoordinates (fun _ => FetchOutcome.thrown) [] "12".data).events
      = [GeoEvent.delay 100, GeoEvent.fetch "12".data] := by decide

/-- C3 (amended): only the approximate-fallback resolver fails fast on a
zip shorter than 3 characters, returning `null` without consulting its
table; `getZipCoordinates` has no length check and, when such a zip is
not cached, still issues the remote request. -/
theorem short_zip_behavior (zipCode : List Char) (env : GeoEnv) (zipCache : ZipCache)
    (hlen : zipCode.length < 3)
    (hmiss : cacheFind? zipCache (zipCode.take 5) = none) :
    getApproximateLocation zipCode = none ∧
      GeoEvent.fetch (zipCode.take 5) ∈ (getZipCoordinates env zipCache zipCode).events := by
  constructor
  · simp [getApproximateLocation, hlen]
  · cases henv : env (zipCode.take 5) with
    | ok places =>
      cases places with
      | nil => simp [getZipCoordinates, hmiss, henv]
      | cons p ps => simp [getZipCoordinates, hmiss, henv]
    | notOk s => simp [getZipCoordinates, hmiss, henv]
    | thrown => simp [getZipCoordinates, hmiss, henv]

theorem short_zip_behavior_w :
    ("12".data.length < 3 ∧ cacheFind? ([] : ZipCache) ("12".data.take 5) = none) ∧
    (getApproximateLocation "12".data = none ∧
      GeoEvent.fetch ("12".data.take 5) ∈
        (getZipCoordinates (fun _ => FetchOutcome.thrown) [] "12".data).events) :=
  ⟨⟨by decide, by decide⟩,
    short_zip_behavior "12".data (fun _ => FetchOutcome.thrown) [] (by decide) (by decide)⟩

/-! ### Batch prefetch lemmas -/

lemma getZipCoordinates_miss_shape (env : GeoEnv) (zipCache : ZipCache) (z : List Char)
    (h5 : z.take 5 = z) (hm : cacheFind? zipCache z = none) :
    (getZipCoordinates env zipCache z).events = [GeoEvent.delay 100, GeoEvent.fetch z] ∧
    ∀ k, k ≠ z →
      cacheFind? (getZipCoordinates env zipCache z).cache k = cacheFind? zipCache k := by
  cases henv : env (z.take 5) with
  | ok places =>
    rw [h5] at henv
    cases places with
    | nil =>
      refine ⟨by simp [getZipCoordinates, h5, hm, henv], fun k hk => ?_⟩
      simp only [getZipCoordinates, h5, hm, henv, List.head?_nil]
      exact cacheFind?_set_ne _ _ _ _ (fun he => hk he.symm)
    | cons p ps =>
      refine ⟨by simp [getZipCoordinates, h5, hm, henv], fun k hk => ?_⟩
      simp only [getZipCoordinates, h5, hm, henv, List.head?_cons]
      exact cacheFind?_set_ne _ _ _ _ (fun he => hk he.symm)
  | notOk s =>
    rw [h5] at henv
    refine ⟨by simp [getZipCoordinates, h5, hm, henv], fun k hk => ?_⟩
    simp only [getZipCoordinates, h5, hm, henv]
    exact cacheFind?_set_ne _ _ _ _ (fun he => hk he.symm)
  | thrown =>
    rw [h5] at henv
    exact ⟨by simp [getZipCoordinates, h5, hm, henv], fun k _ => by
      simp [getZipCoordinates, h5, hm, henv]⟩

lemma uniqueZipsOf_invariant (zipColumn : List (List Char)) :
    (uniqueZipsOf zipColumn).Nodup ∧ ∀ z ∈ uniqueZipsOf zipColumn, z.take 5 = z := by
  suffices h : ∀ acc : List (List Char), acc.Nodup → (∀ z ∈ acc, z.take 5 = z) →
      (zipColumn.foldl (fun s z => if z.isEmpty then s else setAdd s (z.take 5)) acc).Nodup ∧
      ∀ z ∈ zipColumn.foldl (fun s z => if z.isEmpty then s else setAdd s (z.take 5)) acc,
        z.take 5 = z by
    exact h [] List.nodup_nil (by simp)
  induction zipColumn with
  | nil =>
    intro acc h1 h2
    simp only [List.foldl_nil]
    exact ⟨h1, h2⟩
  | cons w rest ih =>
    intro acc h1 h2
    simp only [List.foldl_cons]
    by_cases hw : w.isEmpty = true
    · rw [if_pos hw]
      exact ih acc h1 h2
    · rw [if_neg hw]
      by_cases hmem : w.take 5 ∈ acc
      · unfold setAdd
        rw [if_pos hmem]
        exact ih acc h1 h2
      · unfold setAdd
        rw [if_neg hmem]
        refine ih (acc ++ [w.take 5]) ?_ ?_
        · simp [List.nodup_append, h1, hmem]
        · intro z hz
          rcases List.mem_append.mp hz with hz | hz
          · exact h2 z hz
          · simp only [List.mem_singleton] at hz
            subst hz
            simp [List.take_take]

lemma prefetchLoop_trace (env : GeoEnv) (l : List (List Char)) :
    ∀ zipCache : ZipCache, l.Nodup → (∀ z ∈ l, z.take 5 = z) →
      (∀ z ∈ l, cacheFind? zipCache z = none) →
      (prefetchLoop env zipCache l).2 =
        l.flatMap (fun z => [GeoEvent.delay 100, GeoEvent.fetch z]) := by
  induction l with
  | nil => intro cache _ _ _; simp [prefetchLoop]
  | cons z rest ih =>
    intro cache hnd h5 hm
    obtain ⟨hz_notmem, hnd_rest⟩ := List.nodup_cons.mp hnd
    obtain ⟨hev, hpres⟩ :=
      getZipCoordinates_miss_shape env cache z (h5 z (List.mem_cons_self z rest))
        (hm z (List.mem_cons_self z rest))
    have hrest := ih (getZipCoordinates env cache z).cache hnd_rest
      (fun z' hz' => h5 z' (List.mem_cons_of_mem _ hz'))
      (fun z' hz' => by
        rw [hpres z' (fun he => hz_notmem (he ▸ hz'))]
        exact hm z' (List.mem_cons_of_mem _ hz'))
    simp [prefetchLoop, hev, hrest]

lemma filter_isNone_length (zipCache : ZipCache) (l : List (List Char)) :
    (l.filter (fun z => (cacheFind? zipCache z).isNone)).length =
      l.length - (l.filter (fun z => (cacheFind? zipCache z).isSome)).length := by
  induction l with
  | nil => simp
  | cons z rest ih =>
    have hle := List.length_filter_le (fun z => (cacheFind? zipCache z).isSome) rest
    cases hc : cacheFind? zipCache z <;> simp [List.filter_cons, hc, ih] <;> omega

lemma fetchCount_flatMap (l : List (List Char)) :
    fetchCount (l.flatMap (fun z => [GeoEvent.delay 100, GeoEvent.fetch z])) = l.length := by
  induction l with
  | nil => rfl
  | cons z rest ih =>
    simp only [List.flatMap_cons, fetchCount, List.filter_append, List.length_append] at ih ⊢
    simp [isFetch, ih]
    omega

/-- C4 counterexample: an isolated single lookup of one uncached zip (here
a successful one) still records the 100 ms inter-request delay before its
remote call, although the claim says the delay is not applied on isolated
single lookups. -/
theorem single_lookup_still_delays_cex :
    (getZipCoordinates
        (fun _ => FetchOutcome.ok [⟨41, -81, "Sterling".data, "OH".data⟩])
        [] "44289".data).events
      = [GeoEvent.delay 100, GeoEvent.fetch "44289".data] := by decide

/-- C4 (amended): a batch resolution over the unique zips of the import,
of which some are already cached, issues exactly (number of unique zips)
minus (number already cached) remote calls (assuming all succeed), at
most one per zip, each preceded by the fixed 100 ms delay; the same
delay is also applied on isolated single uncached lookups. -/
theorem batch_prefetch_remote_calls (env : GeoEnv) (zipCache : ZipCache)
    (zipColumn : List (List Char))
    (hsucc : ∀ z ∈ uniqueZipsOf zipColumn, ∃ p ps, env z = FetchOutcome.ok (p :: ps)) :
    (importPrefetch env zipCache zipColumn).2 =
      ((uniqueZipsOf zipColumn).filter
        (fun z => (cacheFind? zipCache z).isNone)).flatMap
          (fun z => [GeoEvent.delay 100, GeoEvent.fetch z]) ∧
    fetchCount (importPrefetch env zipCache zipColumn).2 =
      (uniqueZipsOf zipColumn).length -
        ((uniqueZipsOf zipColumn).filter
          (fun z => (cacheFind? zipCache z).isSome)).length := by
  obtain ⟨hnd, h5⟩ := uniqueZipsOf_invariant zipColumn
  have hnd' := hnd.filter (fun z => (cacheFind? zipCache z).isNone)
  have h5' : ∀ z ∈ (uniqueZipsOf zipColumn).filter
      (fun z => (cacheFind? zipCache z).isNone), z.take 5 = z :=
    fun z hz => h5 z (List.mem_of_mem_filter hz)
  have hm : ∀ z ∈ (uniqueZipsOf zipColumn).filter
      (fun z => (cacheFind? zipCache z).isNone), cacheFind? zipCache z = none := by
    intro z hz
    have := List.of_mem_filter hz
    exact Option.isNone_iff_eq_none.mp (by simpa using this)
  have htrace := prefetchLoop_trace env _ zipCache hnd' h5' hm
  refine ⟨htrace, ?_⟩
  show fetchCount (prefetchLoop env zipCache _).2 = _
  rw [htrace, fetchCount_flatMap, filter_isNone_length]

theorem batch_prefetch_remote_calls_w :
    (importPrefetch (fun _ => FetchOutcome.ok [⟨41, -81, [], []⟩])
        [("10001".data, some ⟨40, -74, none, none⟩)]
        ["44289".data, "44256789".data, "10001".data, "44289".data]).2 =
      ((uniqueZipsOf ["44289".data, "44256789".data, "10001".data, "44289".data]).filter
        (fun z => (cacheFind? [("10001".data, some ⟨40, -74, none, none⟩)] z).isNone)).flatMap
          (fun z => [GeoEvent.delay 100, GeoEvent.fetch z]) ∧
    fetchCount (importPrefetch (fun _ => FetchOutcome.ok [⟨41, -81, [], []⟩])
        [("10001".data, some ⟨40, -74, none, none⟩)]
        ["44289".data, "44256789".data, "10001".data, "44289".data]).2 =
      (uniqueZipsOf ["44289".data, "44256789".data, "10001".data, "44289".data]).length -
        ((uniqueZipsOf ["44289".data, "44256789".data, "10001".data, "44289".data]).filter
          (fun z => (cacheFind? [("10001".data, some ⟨40, -74, none, none⟩)] z).isSome)).length :=
  batch_prefetch_remote_calls (fun _ => FetchOutcome.ok [⟨41, -81, [], []⟩])
    [("10001".data, some ⟨40, -74, none, none⟩)]
    ["44289".data, "44256789".data, "10001".data, "44289".data]
    (fun _ _ => ⟨⟨41, -81, [], []⟩, [], rfl⟩)

/-! ### Cache round-trip lemmas -/

lemma cacheSet_append_of_not_found (c : ZipCache) (k : List Char)
    (v : Option ZipCoordinates) (h : cacheFind? c k = none) :
    cacheSet c k v = c ++ [(k, v)] := by
  induction c with
  | nil => simp [cacheSet]
  | cons kv rest ih =>
    simp only [cacheFind?] at h
    by_cases hk : kv.1 = k
    · rw [if_pos hk] at h
      cases h
    · rw [if_neg hk] at h
      simp only [cacheSet, if_neg hk, List.cons_append]
      rw [ih h]

lemma cacheFind?_append_singleton_none (acc : ZipCache) (k k' : List Char)
    (v : Option ZipCoordinates) (hne : k ≠ k') (h : cacheFind? acc k' = none) :
    cacheFind? (acc ++ [(k, v)]) k' = none := by
  induction acc with
  | nil => simp [cacheFind?, hne]
  | cons kv rest ih =>
    simp only [cacheFind?] at h
    by_cases hk : kv.1 = k'
    · rw [if_pos hk] at h
      cases h
    · rw [if_neg hk] at h
      simp only [List.cons_append, cacheFind?, if_neg hk]
      exact ih h

lemma loadZipCache_foldl (l : List (List Char × Option ZipCoordinates)) :
    ∀ acc : ZipCache, (l.map Prod.fst).Nodup →
      (∀ k ∈ l.map Prod.fst, cacheFind? acc k = none) →
      l.foldl (fun c kv => cacheSet c kv.1 kv.2) acc = acc ++ l := by
  induction l with
  | nil => intro acc _ _; simp
  | cons kv rest ih =>
    intro acc hnd hnone
    simp only [List.map_cons, List.nodup_cons] at hnd
    simp only [List.foldl_cons]
    rw [cacheSet_append_of_not_found acc kv.1 kv.2 (hnone kv.1 (by simp))]
    rw [ih (acc ++ [(kv.1, kv.2)]) hnd.2 ?_]
    · simp
    · intro k hk
      refine cacheFind?_append_singleton_none acc kv.1 k kv.2 ?_ ?_
      · intro he
        exact hnd.1 (he ▸ hk)
      · exact hnone k (by simp [hk])

/-- C9: flushing the cache to the durable store and loading it back into
an empty in-memory cache reproduces the identical cache map, cached
`null` entries included (the keys of a JS `Map` are distinct). -/
theorem cache_flush_load_roundtrip (zipCache : ZipCache)
    (hnd : (zipCache.map Prod.fst).Nodup) :
    loadZipCache (saveZipCache zipCache) = zipCache := by
  unfold loadZipCache saveZipCache
  have h := loadZipCache_foldl zipCache [] hnd (fun k _ => rfl)
  simpa using h

theorem cache_flush_load_roundtrip_w :
    (([("44289".data, some (⟨41, -81, some "Sterling".data, some "OH".data⟩ : ZipCoordinates)),
        ("99999".data, none)] : ZipCache).map Prod.fst).Nodup ∧
    loadZipCache (saveZipCache
        [("44289".data, some ⟨41, -81, some "Sterling".data, some "OH".data⟩),
          ("99999".data, none)]) =
      [("44289".data, some ⟨41, -81, some "Sterling".data, some "OH".data⟩),
        ("99999".data, none)] :=
  ⟨by decide,
    cache_flush_load_roundtrip
      [("44289".data, some ⟨41, -81, some "Sterling".data, some "OH".data⟩),
        ("99999".data, none)] (by decide)⟩

/-! ### Approximate table lemmas -/

lemma find?_first_containing (pfx : Nat) (l : List ZipRange)
    (hp : l.Pairwise (fun r1 r2 => r1.hi < r2.lo)) :
    ∀ r ∈ l, r.lo ≤ pfx → pfx ≤ r.hi → l.find? (rangeContains pfx) = some r := by
  induction l with
  | nil => intro r hr; cases hr
  | cons a t ih =>
    intro r hr h1 h2
    rcases List.mem_cons.mp hr with rfl | hrt
    · exact List.find?_cons_of_pos _ (by simp [rangeContains, h1, h2])
    · have ha : a.hi < r.lo := ((List.pairwise_cons.mp hp).1 r hrt)
      rw [List.find?_cons_of_neg _ (by simp [rangeContains]; omega)]
      exact ih (List.pairwise_cons.mp hp).2 r hrt h1 h2

/-- C8: the `ZIP_RANGES` prefix ranges are pairwise non-overlapping and
strictly ordered by range start; for a zip of at least 3 characters
whose parsed 3-digit prefix lies inside some range,
`getApproximateLocation` returns that unique range's coordinates, and it
returns `null` when the prefix lies in no range. -/
theorem zip_ranges_table_sound :
    ZIP_RANGES.Pairwise (fun r1 r2 => r1.hi < r2.lo) ∧
    ZIP_RANGES.Pairwise (fun r1 r2 => r1.lo < r2.lo) ∧
    (∀ (zip : List Char) (pfx : Nat) (r : ZipRange), 3 ≤ zip.length →
      jsParseIntPrefix (zip.take 3) = some pfx → r ∈ ZIP_RANGES →
      r.lo ≤ pfx → pfx ≤ r.hi →
      getApproximateLocation zip = some (r.lat, r.lng)) ∧
    (∀ (zip : List Char) (pfx : Nat), 3 ≤ zip.length →
      jsParseIntPrefix (zip.take 3) = some pfx →
      (∀ r ∈ ZIP_RANGES, ¬(r.lo ≤ pfx ∧ pfx ≤ r.hi)) →
      getApproximateLocation zip = none) := by
  refine ⟨by decide, by decide, ?_, ?_⟩
  · intro zip pfx r hlen hparse hr h1 h2
    have hnot : ¬ zip.length < 3 := by omega
    simp only [getApproximateLocation, if_neg hnot, hparse]
    rw [find?_first_containing pfx ZIP_RANGES (by decide) r hr h1 h2]
    rfl
  · intro zip pfx hlen hparse hnone
    have hnot : ¬ zip.length < 3 := by omega
    simp only [getApproximateLocation, if_neg hnot, hparse]
    have hfind : ZIP_RANGES.find? (rangeContains pfx) = none := by
      rw [List.find?_eq_none]
      intro r hr
      have hnr := hnone r hr
      simp only [rangeContains]
      simp only [not_and] at hnr
      simp only [Bool.and_eq_true, decide_eq_true_eq]
      omega
    rw [hfind]
    rfl

theorem zip_ranges_table_sound_w :
    (3 ≤ "44289".data.length ∧ jsParseIntPrefix ("44289".data.take 3) = some 442) ∧
    getApproximateLocation "44289".data = some (41.5, -81.7) :=
  ⟨⟨by decide, by decide⟩,
    zip_ranges_table_sound.2.2.1 "44289".data 442 ⟨440, 449, 41.5, -81.7⟩
      (by decide) (by decide) (by simp [ZIP_RANGES]) (by decide) (by decide)⟩

/-! ### Distance calculator lemmas -/

lemma radiansOf_sub (x y : ℝ) : radiansOf (x - y) = radiansOf x - radiansOf y := by
  unfold radiansOf
  ring

lemma cosAngle_sq_le_one (a b : Coordinate) : cosAngle a b ^ 2 ≤ 1 := by
  unfold cosAngle
  set c1 := Real.cos (radiansOf a.lat) with hc1
  set s1 := Real.sin (radiansOf a.lat) with hs1
  set c2 := Real.cos (radiansOf b.lat) with hc2
  set s2 := Real.sin (radiansOf b.lat) with hs2
  set d := Real.cos (radiansOf b.lng - radiansOf a.lng) with hd
  have h1 : s1 ^ 2 + c1 ^ 2 = 1 := Real.sin_sq_add_cos_sq (radiansOf a.lat)
  have h2 : s2 ^ 2 + c2 ^ 2 = 1 := Real.sin_sq_add_cos_sq (radiansOf b.lat)
  have h3 : d ^ 2 ≤ 1 := Real.cos_sq_le_one (radiansOf b.lng - radiansOf a.lng)
  have key : (c1 * c2 * d + s1 * s2) ^ 2 ≤ (c1 ^ 2 + s1 ^ 2) * ((c2 * d) ^ 2 + s2 ^ 2) := by
    nlinarith [sq_nonneg (c1 * s2 - s1 * (c2 * d))]
  have hc2d : (c2 * d) ^ 2 ≤ c2 ^ 2 := by nlinarith [sq_nonneg c2, h3]
  have key2 : (c2 * d) ^ 2 + s2 ^ 2 ≤ 1 := by linarith
  have key3 : c1 ^ 2 + s1 ^ 2 = 1 := by linarith
  calc (c1 * c2 * d + s1 * s2) ^ 2
      ≤ (c1 ^ 2 + s1 ^ 2) * ((c2 * d) ^ 2 + s2 ^ 2) := key
    _ = (c2 * d) ^ 2 + s2 ^ 2 := by rw [key3, one_mul]
    _ ≤ 1 := key2

lemma neg_one_le_cosAngle (a b : Coordinate) : -1 ≤ cosAngle a b := by
  nlinarith [cosAngle_sq_le_one a b, sq_nonneg (cosAngle a b + 1)]

lemma cosAngle_le_one (a b : Coordinate) : cosAngle a b ≤ 1 := by
  nlinarith [cosAngle_sq_le_one a b, sq_nonneg (cosAngle a b - 1)]

lemma cosAngle_self (a : Coordinate) : cosAngle a a = 1 := by
  unfold cosAngle
  rw [sub_self, Real.cos_zero]
  have h := Real.sin_sq_add_cos_sq (radiansOf a.lat)
  nlinarith [h]

lemma cosAngle_comm (a b : Coordinate) : cosAngle a b = cosAngle b a := by
  unfold cosAngle
  rw [show radiansOf a.lng - radiansOf b.lng
      = -(radiansOf b.lng - radiansOf a.lng) by ring, Real.cos_neg]
  ring

lemma arccos_double_arcsin (x : ℝ) (h1 : -1 ≤ x) (h2 : x ≤ 1) :
    2 * Real.arcsin (Real.sqrt ((1 - x) / 2)) = Real.arccos x := by
  have h0 := Real.arccos_nonneg x
  have hpi := Real.arccos_le_pi x
  have hpipos := Real.pi_pos
  have hs : Real.sin (Real.arccos x / 2)
      = Real.sqrt ((1 - Real.cos (Real.arccos x)) / 2) :=
    Real.sin_half_eq_sqrt h0 (by linarith)
  rw [Real.cos_arccos h1 h2] at hs
  rw [← hs, Real.arcsin_sin (by linarith) (by linarith)]
  ring

lemma sin_sq_half_angle (t : ℝ) : Real.sin (t / 2) ^ 2 = (1 - Real.cos t) / 2 := by
  have h := Real.sin_sq_eq_half_sub (t / 2)
  rw [show 2 * (t / 2) = t by ring] at h
  rw [h]
  ring

lemma hav_eq (a b : Coordinate) :
    Real.sin (radiansOf (b.lat - a.lat) / 2) ^ 2 +
      Real.cos (radiansOf a.lat) * Real.cos (radiansOf b.lat) *
        Real.sin (radiansOf (b.lng - a.lng) / 2) ^ 2
      = (1 - cosAngle a b) / 2 := by
  unfold cosAngle
  rw [radiansOf_sub, radiansOf_sub, sin_sq_half_angle, sin_sq_half_angle,
    Real.cos_sub (radiansOf b.lat) (radiansOf a.lat)]
  ring

lemma distanceMiles_eq_specHaversine (a b : Coordinate) :
    distanceMiles a b = specHaversineMiles a b := by
  unfold distanceMiles specHaversineMiles centralAngle
  rw [hav_eq, ← arccos_double_arcsin (cosAngle a b) (neg_one_le_cosAngle a b)
    (cosAngle_le_one a b)]
  ring

lemma distanceMiles_self (a : Coordinate) : distanceMiles a a = 0 := by
  unfold distanceMiles centralAngle
  rw [cosAngle_self, Real.arccos_one, mul_zero]

/-- C7: the repository's distance function equals the Haversine
great-circle distance with Earth radius 3959 miles, vanishes on equal
coordinates, is symmetric, and is monotone in the angular separation of
its arguments. -/
theorem distance_calculator_props (a b c : Coordinate) :
    distanceMiles a b = specHaversineMiles a b ∧
    distanceMiles a a = 0 ∧
    distanceMiles a b = distanceMiles b a ∧
    (centralAngle a b ≤ centralAngle a c → distanceMiles a b ≤ distanceMiles a c) := by
  refine ⟨distanceMiles_eq_specHaversine a b, distanceMiles_self a, ?_, ?_⟩
  · unfold distanceMiles centralAngle
    rw [cosAngle_comm]
  · intro h
    unfold distanceMiles
    have h39 : (0:ℝ) ≤ 3959 := by norm_num
    exact mul_le_mul_of_nonneg_left h h39

theorem distance_calculator_props_w :
    distanceMiles ⟨0, 0⟩ ⟨0, 0⟩ = specHaversineMiles ⟨0, 0⟩ ⟨0, 0⟩ ∧
    distanceMiles ⟨0, 0⟩ ⟨0, 0⟩ = 0 ∧
    distanceMiles ⟨0, 0⟩ ⟨0, 0⟩ = distanceMiles ⟨0, 0⟩ ⟨0, 0⟩ ∧
    (centralAngle ⟨0, 0⟩ ⟨0, 0⟩ ≤ centralAngle ⟨0, 0⟩ ⟨0, 0⟩ →
      distanceMiles ⟨0, 0⟩ ⟨0, 0⟩ ≤ distanceMiles ⟨0, 0⟩ ⟨0, 0⟩) :=
  distance_calculator_props ⟨0, 0⟩ ⟨0, 0⟩ ⟨0, 0⟩

/-! ### Planner and strategy theorems -/

/-- C6: when the cache/remote stage and the approximate fallback both
yield null for the center zip, `findWithinRadius` returns
`QueryFailure{UnresolvableCenter}`, a value distinct from every
successful `SearchResult` (in particular the empty one). -/
theorem unresolvable_center_query_failure (env : GeoEnv) (zipCache : ZipCache)
    (ds : List GeoRecord) (centerZip : List Char) (radiusMiles : ℝ)
    (results : List (Nat × ℝ))
    (h1 : (getZipCoordinates env zipCache centerZip).result = none)
    (h2 : getApproximateLocation (centerZip.take 5) = none) :
    findWithinRadius env zipCache ds centerZip radiusMiles
      = QueryOutcome.failure QueryFailureReason.unresolvableCenter ∧
    QueryOutcome.failure QueryFailureReason.unresolvableCenter
      ≠ QueryOutcome.success results := by
  constructor
  · unfold findWithinRadius resolveCenter
    by_cases hd : ((centerZip.take 5).filter Char.isDigit).length < 3
    · simp [hd]
    · simp [hd, h1, h2]
  · exact fun h => nomatch h

theorem unresolvable_center_query_failure_w :
    ((getZipCoordinates (fun _ => FetchOutcome.notOk 404) [] "00000".data).result = none ∧
      getApproximateLocation ("00000".data.take 5) = none) ∧
    (findWithinRadius (fun _ => FetchOutcome.notOk 404) [] [] "00000".data 50
        = QueryOutcome.failure QueryFailureReason.unresolvableCenter ∧
      QueryOutcome.failure QueryFailureReason.unresolvableCenter
        ≠ QueryOutcome.success []) :=
  ⟨⟨by decide, by decide⟩,
    unresolvable_center_query_failure (fun _ => FetchOutcome.notOk 404) [] []
      "00000".data 50 [] (by decide) (by decide)⟩

lemma test3Coordinate_10001 : test3Coordinate "10001".data = ⟨40.0, -82.0⟩ := by
  unfold test3Coordinate
  rw [if_neg (by decide), if_neg (by decide), if_neg (by decide)]

lemma cosAngle_origin_40_82 :
    cosAngle ⟨0, 0⟩ ⟨40.0, -82.0⟩
      = Real.cos (40 * Real.pi / 180) * Real.cos (82 * Real.pi / 180) := by
  unfold cosAngle radiansOf
  rw [show ((0 : ℝ) * Real.pi / 180) = 0 by ring, Real.cos_zero, Real.sin_zero]
  rw [show ((-82.0 : ℝ) * Real.pi / 180 - 0) = -(82 * Real.pi / 180) by
    rw [show ((-82.0 : ℝ)) = -82 by norm_num]
    ring]
  rw [Real.cos_neg, show ((40.0 : ℝ)) = (40 : ℝ) by norm_num]
  ring

lemma distance_origin_40_82_gt_one :
    1 < distanceMiles ⟨0, 0⟩ ⟨40.0, -82.0⟩ := by
  have hπ := Real.pi_pos
  have h40nn : (0 : ℝ) ≤ 40 * Real.pi / 180 := by positivity
  have h40half : 40 * Real.pi / 180 ≤ Real.pi / 2 := by linarith
  have h82lo : Real.pi / 3 < 82 * Real.pi / 180 := by linarith
  have h82hi : 82 * Real.pi / 180 ≤ Real.pi := by linarith
  have h82half : 82 * Real.pi / 180 ≤ Real.pi / 2 := by linarith
  have h82nn : (0 : ℝ) ≤ 82 * Real.pi / 180 := by positivity
  have hcos40le := Real.cos_le_one (40 * Real.pi / 180)
  have hcos82nn : 0 ≤ Real.cos (82 * Real.pi / 180) :=
    Real.cos_nonneg_of_mem_Icc ⟨by linarith, h82half⟩
  have hcos82 : Real.cos (82 * Real.pi / 180) < 1 / 2 := by
    have h := Real.cos_lt_cos_of_nonneg_of_le_pi (by positivity) h82hi h82lo
    rwa [Real.cos_pi_div_three] at h
  have hx : Real.cos (40 * Real.pi / 180) * Real.cos (82 * Real.pi / 180) < 1 / 2 :=
    lt_of_le_of_lt (mul_le_of_le_one_left hcos82nn hcos40le) hcos82
  have harcsin := Real.monotone_arcsin (le_of_lt hx)
  have e1 := Real.arccos_eq_pi_div_two_sub_arcsin
    (Real.cos (40 * Real.pi / 180) * Real.cos (82 * Real.pi / 180))
  have e2 : Real.arccos (1 / 2) = Real.pi / 3 := by
    rw [← Real.cos_pi_div_three]
    exact Real.arccos_cos (by positivity) (by linarith)
  have e3 := Real.arccos_eq_pi_div_two_sub_arcsin (1 / 2 : ℝ)
  have harc : Real.pi / 3 ≤ Real.arccos
      (Real.cos (40 * Real.pi / 180) * Real.cos (82 * Real.pi / 180)) := by
    rw [e1]
    rw [e2, e3] at *
    linarith
  unfold distanceMiles centralAngle
  rw [cosAngle_origin_40_82]
  nlinarith [Real.pi_gt_three, harc]

/-- C5 counterexample: on a dataset with one record stored exactly at the
center, with zip 10001, at radius 1 mile the native spatial strategy
matches the record (distance 0) while the exhaustive manual-Haversine
strategy substitutes the fixed default prefix coordinate (40, -82) and
rejects it (distance over 1 mile); the two match sets differ, and not as
a floating-point tie at the radius boundary (both distances are strictly
away from the radius). -/
theorem strategies_disagree_cex :
    (⟨1, some "10001".data, some ⟨0, 0⟩⟩ : GeoRecord) ∈
      nativeMatches [⟨1, some "10001".data, some ⟨0, 0⟩⟩] ⟨0, 0⟩ 1 ∧
    (⟨1, some "10001".data, some ⟨0, 0⟩⟩ : GeoRecord) ∉
      exhaustiveMatches [⟨1, some "10001".data, some ⟨0, 0⟩⟩] ⟨0, 0⟩ 1 ∧
    nativeMatches [⟨1, some "10001".data, some ⟨0, 0⟩⟩] ⟨0, 0⟩ 1 ≠
      exhaustiveMatches [⟨1, some "10001".data, some ⟨0, 0⟩⟩] ⟨0, 0⟩ 1 := by
  have hmem : (⟨1, some "10001".data, some ⟨0, 0⟩⟩ : GeoRecord) ∈
      nativeMatches [⟨1, some "10001".data, some ⟨0, 0⟩⟩] ⟨0, 0⟩ 1 := by
    refine ⟨by simp, ⟨0, 0⟩, rfl, ?_⟩
    unfold stDistanceMeters
    rw [distanceMiles_self, zero_mul]
    norm_num
  have hnot : (⟨1, some "10001".data, some ⟨0, 0⟩⟩ : GeoRecord) ∉
      exhaustiveMatches [⟨1, some "10001".data, some ⟨0, 0⟩⟩] ⟨0, 0⟩ 1 := by
    rintro ⟨-, z, hz, hle⟩
    rw [Option.some_inj] at hz
    subst hz
    rw [test3Coordinate_10001] at hle
    exact absurd hle (not_le.mpr distance_origin_40_82_gt_one)
  exact ⟨hmem, hnot, fun heq => hnot (heq ▸ hmem)⟩

/-- C5 (amended): the bounding-box strategy's matches are always a subset
of the native strategy's matches, and the two agree exactly whenever
every record within the radius also lies inside the computed bounding
box (the exact distance predicate corrects over-inclusion at the box
corners); the exhaustive strategy evaluates prefix-derived approximate
coordinates instead of the stored ones, and its match set can differ
from the other two away from the radius boundary. -/
theorem bbox_refines_native (ds : List GeoRecord) (center : Coordinate)
    (radiusMiles : ℝ) :
    bboxMatches ds center radiusMiles ⊆ nativeMatches ds center radiusMiles ∧
    ((∀ r ∈ ds, ∀ g : Coordinate, r.geo = some g →
        stDistanceMeters center g ≤ radiusMiles * 1609.344 →
        inBoundingBox center radiusMiles g) →
      bboxMatches ds center radiusMiles = nativeMatches ds center radiusMiles) := by
  have hsub : bboxMatches ds center radiusMiles ⊆ nativeMatches ds center radiusMiles := by
    rintro r ⟨hmem, g, hg, -, hdist⟩
    exact ⟨hmem, g, hg, hdist⟩
  refine ⟨hsub, fun hcover => Set.Subset.antisymm hsub ?_⟩
  rintro r ⟨hmem, g, hg, hdist⟩
  exact ⟨hmem, g, hg, hcover r hmem g hg hdist, hdist⟩

theorem bbox_refines_native_w :
    bboxMatches [⟨1, some "10001".data, some ⟨0, 0⟩⟩] ⟨0, 0⟩ 1 ⊆
      nativeMatches [⟨1, some "10001".data, some ⟨0, 0⟩⟩] ⟨0, 0⟩ 1 ∧
    bboxMatches [⟨1, some "10001".data, some ⟨0, 0⟩⟩] ⟨0, 0⟩ 1 =
      nativeMatches [⟨1, some "10001".data, some ⟨0, 0⟩⟩] ⟨0, 0⟩ 1 :=
  ⟨(bbox_refines_native [⟨1, some "10001".data, some ⟨0, 0⟩⟩] ⟨0, 0⟩ 1).1,
    (bbox_refines_native [⟨1, some "10001".data, some ⟨0, 0⟩⟩] ⟨0, 0⟩ 1).2
      (by
        intro r hr g hg _
        rw [List.mem_singleton] at hr
        subst hr
        rw [Option.some_inj] at hg
        subst hg
        unfold inBoundingBox radiansOf
        norm_num [Real.cos_zero])⟩
